import Mathlib

/-!
Verification of the remote-metrics collector in
`src/app/api/remote-system/route.ts` (the `POST` handler).

The handler is embedded shallowly: JavaScript strings become `String`,
JavaScript numbers become exact rationals (`Rat`) or `Int`/`Nat`, `NaN`
results of `parseInt`/`parseFloat` become `Option.none`, and the
side-effecting parts of the handler (temp key file on disk, SSH session)
are threaded through an explicit `World` state, with the outcomes of the
fallible SSH operations supplied by an `SshEnv` oracle.
-/

namespace RemoteSystem

/-! ## JavaScript string primitives -/

/-- Value of a decimal digit character. -/
def decDigitVal (c : Char) : Nat := c.toNat - 48

/-- Hexadecimal digit test ('0'-'9', 'a'-'f', 'A'-'F'). -/
def isHexDig (c : Char) : Bool :=
  c.isDigit || ('a' ≤ c && c ≤ 'f') || ('A' ≤ c && c ≤ 'F')

/-- Value of a hexadecimal digit character. -/
def hexDigitVal (c : Char) : Nat :=
  if c.isDigit then c.toNat - 48
  else if 'a' ≤ c && c ≤ 'f' then c.toNat - 97 + 10
  else c.toNat - 65 + 10

/-- Digit string to a natural number in the given base. -/
def digitsToNat (base : Nat) (ds : List Char) : Nat :=
  ds.foldl (fun a c => a * base + hexDigitVal c) 0

/-- One global, left-to-right, non-overlapping replacement pass, the
semantics of JavaScript `s.replace(/pat/g, repl)` for a literal pattern.
The `fuel` argument only makes the recursion structural; it is consumed
one unit per character position, so `fuel = l.length` never runs out. -/
def replaceCharsAux (pat repl : List Char) : Nat → List Char → List Char
  | 0, l => l
  | _ + 1, [] => []
  | fuel + 1, c :: cs =>
    if pat.isPrefixOf (c :: cs) && !pat.isEmpty then
      repl ++ replaceCharsAux pat repl fuel (cs.drop (pat.length - 1))
    else
      c :: replaceCharsAux pat repl fuel cs

/-- JavaScript `s.replace(/pat/g, repl)` for a literal pattern `pat`. -/
def jsReplaceAll (s pat repl : String) : String :=
  ⟨replaceCharsAux pat.data repl.data s.data.length s.data⟩

/-- JavaScript `s.trim()` (restricted to ASCII-style whitespace). -/
def jsTrim (s : String) : String :=
  ⟨((s.data.dropWhile Char.isWhitespace).reverse.dropWhile Char.isWhitespace).reverse⟩

/-- Splitting at every occurrence of a literal separator, the semantics of
JavaScript `s.split(sep)` for a non-empty literal `sep`.  `fuel` as in
`replaceCharsAux`. -/
def splitCharsAux (sep : List Char) : Nat → List Char → List Char → List (List Char)
  | 0, acc, l => [(acc.reverse ++ l)]
  | _ + 1, acc, [] => [acc.reverse]
  | fuel + 1, acc, c :: cs =>
    if sep.isPrefixOf (c :: cs) && !sep.isEmpty then
      acc.reverse :: splitCharsAux sep fuel [] (cs.drop (sep.length - 1))
    else
      splitCharsAux sep fuel (c :: acc) cs

/-- JavaScript `s.split(sep)` for a non-empty literal separator. -/
def jsSplit (s sep : String) : List String :=
  (splitCharsAux sep.data s.data.length [] s.data).map fun l => ⟨l⟩

/-- Split at every character satisfying `p` (producing empty pieces for
adjacent separators). -/
def splitPredAux (p : Char → Bool) (acc : List Char) : List Char → List (List Char)
  | [] => [acc.reverse]
  | c :: cs => if p c then acc.reverse :: splitPredAux p [] cs else splitPredAux p (c :: acc) cs

/-- JavaScript `s.split(/\s+/)` applied to an already-trimmed string:
splitting a trimmed string on runs of whitespace is splitting on single
whitespace characters with the empty pieces removed. -/
def jsWords (s : String) : List String :=
  ((splitPredAux Char.isWhitespace [] s.data).map fun l => (⟨l⟩ : String)).filter (· ≠ "")

/-- JavaScript `s.includes(pat)` for a non-empty literal `pat`. -/
def jsIncludes (s pat : String) : Bool :=
  (jsSplit s pat).length ≠ 1

/-- JavaScript `s.substring(0, n)`. -/
def jsSubstringTo (s : String) (n : Nat) : String :=
  ⟨s.data.take n⟩

/-- JavaScript `parts.join(sep)`. -/
def jsJoin (sep : String) : List String → String
  | [] => ""
  | [x] => x
  | x :: xs => x ++ sep ++ jsJoin sep xs

/-! ## JavaScript numeric primitives

JavaScript numbers are modelled as exact rationals.  Because the library's
`Rat` arithmetic operations are `@[irreducible]`, the model uses
kernel-computable operations built from `mkRat`; bridge lemmas below prove
them equal to the standard `Rat` operations, so the values are ordinary
rationals with their ordinary meaning. -/

/-- The rational `a / b` for integers `a`, `b` (`0` when `b = 0`; the
embedded handler only ever divides by a non-zero total). -/
def ratDivInt (a b : Int) : Rat :=
  if b < 0 then mkRat (-a) (-b).toNat else mkRat a b.toNat

/-- Kernel-computable multiplication of rationals. -/
def ratMul (a b : Rat) : Rat := mkRat (a.num * b.num) (a.den * b.den)

/-- Kernel-computable `(10 : Rat) ^ e` for an integer exponent. -/
def pow10 (e : Int) : Rat :=
  if 0 ≤ e then mkRat (10 ^ e.toNat) 1 else mkRat 1 (10 ^ (-e).toNat)

/-- Kernel-computable `⌊q⌋` (JavaScript `Math.floor`). -/
def ratFloor (q : Rat) : Int := q.num.fdiv q.den

/-- JavaScript `parseInt(s)` (no explicit radix: leading whitespace is
skipped, an optional sign is read, a `0x`/`0X` prefix selects base 16,
and the maximal digit prefix is converted; no digits means `NaN`,
modelled as `none`). -/
def jsParseInt (s : String) : Option Int :=
  let cs := s.data.dropWhile Char.isWhitespace
  let signAndRest : Int × List Char :=
    match cs with
    | '-' :: r => (-1, r)
    | '+' :: r => (1, r)
    | _ => (1, cs)
  let sign := signAndRest.1
  match signAndRest.2 with
  | '0' :: 'x' :: r | '0' :: 'X' :: r =>
    let ds := r.takeWhile isHexDig
    if ds.isEmpty then none else some (sign * digitsToNat 16 ds)
  | rest =>
    let ds := rest.takeWhile Char.isDigit
    if ds.isEmpty then none else some (sign * digitsToNat 10 ds)

/-- JavaScript `parseFloat(s)`: leading whitespace skipped, optional sign,
maximal decimal literal prefix (digits, optional fraction, optional
exponent); no digits at all means `NaN`, modelled as `none`.  (The
`Infinity` literal, which no probe output produces, is out of model.) -/
def jsParseFloat (s : String) : Option Rat :=
  let cs := s.data.dropWhile Char.isWhitespace
  let signAndRest : Int × List Char :=
    match cs with
    | '-' :: r => (-1, r)
    | '+' :: r => (1, r)
    | _ => (1, cs)
  let sign := signAndRest.1
  let cs1 := signAndRest.2
  let ip := cs1.takeWhile Char.isDigit
  let r1 := cs1.dropWhile Char.isDigit
  let fracAndRest : List Char × List Char :=
    match r1 with
    | '.' :: r => (r.takeWhile Char.isDigit, r.dropWhile Char.isDigit)
    | _ => ([], r1)
  let fp := fracAndRest.1
  if ip.isEmpty && fp.isEmpty then none
  else
    let mant : Rat := mkRat (sign * (digitsToNat 10 (ip ++ fp) : Int)) (10 ^ fp.length)
    let e : Int :=
      match fracAndRest.2 with
      | c :: r3 =>
        if c = 'e' || c = 'E' then
          let expSignAndRest : Int × List Char :=
            match r3 with
            | '-' :: r => (-1, r)
            | '+' :: r => (1, r)
            | _ => (1, r3)
          let ed := expSignAndRest.2.takeWhile Char.isDigit
          if ed.isEmpty then 0 else expSignAndRest.1 * (digitsToNat 10 ed : Int)
        else 0
      | [] => 0
    some (ratMul mant (pow10 e))

/-- JavaScript `x || d` for an integer-valued `x` that may be `NaN`
(`none`): `NaN` and `0` are falsy and give the default. -/
def jsOrInt (x : Option Int) (d : Int) : Int :=
  match x with
  | none => d
  | some n => if n = 0 then d else n

/-- JavaScript `x || d` for a float-valued `x` that may be `NaN`. -/
def jsOrFloat (x : Option Rat) (d : Rat) : Rat :=
  match x with
  | none => d
  | some q => if q = 0 then d else q

/-- JavaScript `s || d` for a string `s` (empty and absent are falsy). -/
def jsOrStr (s d : String) : String :=
  if s = "" then d else s

/-- JavaScript `x.toFixed(2)` on an exact rational: round `|x| * 100` to
the nearest integer, ties to the larger magnitude, and print with two
decimal places (ECMA `Number.prototype.toFixed` on the exact value).
`n` below is `⌊|x| * 100 + 1/2⌋ = ⌊(200 * |x.num| + x.den) / (2 * x.den)⌋`,
computed by natural-number division (see `jsToFixed2_rounds`). -/
def jsToFixed2 (x : Rat) : String :=
  let n : Nat := (200 * x.num.natAbs + x.den) / (2 * x.den)
  (if x.num < 0 then "-" else "") ++ toString (n / 100) ++ "." ++
    (if n % 100 < 10 then "0" else "") ++ toString (n % 100)

/-! ## The remote-metrics route (`src/app/api/remote-system/route.ts`)

### Request body and connection configuration -/

/-- The JSON request body destructured by the handler
(`const { host, port, username, privateKey, passphrase, password } = body`).
A missing string field and an empty one are both falsy in the handler's
checks, so both are modelled as `""`; a missing `port` and port `0` are
both falsy in `port || 22`, so both are modelled as `0`. -/
structure Body where
  host : String
  port : Nat
  username : String
  privateKey : String
  passphrase : String
  password : String
  deriving DecidableEq

/-- The `connectionConfig` object passed to `ssh.connect`. -/
structure ConnectionConfig where
  host : String
  port : Nat
  username : String
  readyTimeout : Nat
  tryKeyboard : Bool
  password : Option String
  privateKeyPath : Option String
  passphrase : Option String
  deriving DecidableEq

/-- Line-ending normalization applied to the private key
(`privateKey.replace(/\\n/g,'\n').replace(/\r\n/g,'\n').replace(/\r/g,'\n').trim()`). -/
def normalizeKey (k : String) : String :=
  jsTrim (jsReplaceAll (jsReplaceAll (jsReplaceAll k "\\n" "\n") "\r\n" "\n") "\r" "\n")

/-- The PPK container marker tested by `processedKey.includes(...)`. -/
def ppkMarker : String := "PuTTY-User-Key-File"

/-- Placeholder for the transient key file's path.  The real name is
`<tmpdir>/ssh-keys/key-<Date.now()>-<random>`; its time and random
components play no role in any claim and are not modelled. -/
def keyFileName : String := "ssh-keys/key"

/-! ### Error messages (verbatim from the route) -/

def invalidBodyMsg : String := "Invalid request body"

def missingFieldMsg : String := "Missing required fields: host, username"

def missingCredentialMsg : String := "Either private key or password is required"

def ppkMsg : String :=
  "PPK format detected. Please convert to OpenSSH format:\n\n" ++
  "1. Open PuTTYgen\n" ++
  "2. Load your .ppk file\n" ++
  "3. Go to Conversions → Export OpenSSH key\n" ++
  "4. Save and upload the converted .pem file\n\n" ++
  "Or use command: puttygen yourkey.ppk -O private-openssh -o yourkey.pem"

def probeFailedMsg : String := "Failed to execute system commands"

def fallbackErrorMsg : String := "Failed to fetch remote system info"

def authFailedMsg : String :=
  "Authentication failed. Please check your username and private key."

def timeoutMsg : String := "Connection timeout. Please check the host and port."

def refusedMsg : String :=
  "Connection refused. Please check if SSH is running on the remote host."

def badKeyFormatMsg : String :=
  "Unsupported private key format. Please convert your PPK file to OpenSSH format:\n\n" ++
  "1. Open PuTTYgen\n" ++
  "2. Load your .ppk file (Conversions > Import key)\n" ++
  "3. Go to Conversions > Export OpenSSH key\n" ++
  "4. Save the file and use it here\n\n" ++
  "Or use command line: puttygen yourkey.ppk -O private-openssh -o yourkey.pem"

/-! ### Scalar probe parsing (route lines 147-165) -/

/-- `result.stdout.trim().split('---').map(s => s.trim())`. -/
def splitScalarStdout (stdout : String) : List String :=
  (jsSplit (jsTrim stdout) "---").map jsTrim

/-- The typed values bound by the `const ... = parseInt/parseFloat(results[i]) || d`
block (route lines 149-165).  `results[i]` beyond the end of the array is
`undefined`, which parses to `NaN` and stringifies falsy exactly like `""`,
so out-of-range indexing is modelled by `getD _ ""`. -/
structure ScalarValues where
  cpuUsage : Rat
  cpuCores : Int
  cpuModel : String
  memTotal : Int
  memUsed : Int
  memFree : Int
  diskTotal : Int
  diskUsed : Int
  diskAvailable : Int
  diskUsagePercent : Rat
  platform : String
  distro : String
  arch : String
  hostname : String
  uptime : Rat
  processesAll : Int
  processesRunning : Int
  deriving DecidableEq

/-- Route lines 149-165: one `const` binding per sentinel-delimited field,
in the fixed probe order, with the route's per-field fallbacks. -/
def parseScalarValues (host : String) (results : List String) : ScalarValues where
  cpuUsage := jsOrFloat (jsParseFloat (results.getD 0 "")) 0
  cpuCores := jsOrInt (jsParseInt (results.getD 1 "")) 1
  cpuModel := jsOrStr (results.getD 2 "") "Unknown"
  memTotal := jsOrInt (jsParseInt (results.getD 3 "")) 1
  memUsed := jsOrInt (jsParseInt (results.getD 4 "")) 0
  memFree := jsOrInt (jsParseInt (results.getD 5 "")) 0
  diskTotal := jsOrInt (jsParseInt (results.getD 6 "")) 1
  diskUsed := jsOrInt (jsParseInt (results.getD 7 "")) 0
  diskAvailable := jsOrInt (jsParseInt (results.getD 8 "")) 0
  diskUsagePercent := jsOrFloat (jsParseFloat (results.getD 9 "")) 0
  platform := jsOrStr (results.getD 10 "") "Linux"
  distro := jsOrStr (results.getD 11 "") "Unknown"
  arch := jsOrStr (results.getD 12 "") "Unknown"
  hostname := jsOrStr (results.getD 13 "") host
  uptime := jsOrFloat (jsParseFloat (results.getD 14 "")) 0
  processesAll := jsOrInt (jsParseInt (results.getD 15 "")) 0
  processesRunning := jsOrInt (jsParseInt (results.getD 16 "")) 0

/-! ### Process table parsing (route lines 168-190) -/

/-- One parsed `ps aux` row.  `pid`, `cpu`, `mem`, `vsz`, `rss` have no
`|| d` fallback in the route, so a parse failure leaves `NaN`, modelled
as `none`. -/
structure ProcessRow where
  user : String
  pid : Option Int
  cpu : Option Rat
  mem : Option Rat
  vsz : Option Int
  rss : Option Int
  tty : String
  stat : String
  start : String
  time : String
  command : String
  deriving DecidableEq

/-- The body of the `.map` over process lines: tokenize on whitespace
runs, drop lines with fewer than 11 tokens (`return null`), rejoin the
11th-and-later tokens with single spaces and cut to 50 characters. -/
def parseProcessLine (line : String) : Option ProcessRow :=
  let parts := jsWords (jsTrim line)
  if parts.length < 11 then none
  else some
    { user := parts.getD 0 ""
      pid := jsParseInt (parts.getD 1 "")
      cpu := jsParseFloat (parts.getD 2 "")
      mem := jsParseFloat (parts.getD 3 "")
      vsz := jsParseInt (parts.getD 4 "")
      rss := jsParseInt (parts.getD 5 "")
      tty := parts.getD 6 ""
      stat := parts.getD 7 ""
      start := parts.getD 8 ""
      time := parts.getD 9 ""
      command := jsSubstringTo (jsJoin " " (parts.drop 10)) 50 }

/-- Route lines 168-190: split the process stdout on newlines, keep
non-blank lines, parse each (`null` results filtered out), keep the
first 20. -/
def parseProcesses (stdout : String) : List ProcessRow :=
  (((jsSplit stdout "\n").filter fun l => jsTrim l ≠ "").filterMap parseProcessLine).take 20

/-! ### The response entity (route lines 192-228) -/

structure CpuData where
  usage : String
  cores : Int
  model : String
  speed : Int
  deriving DecidableEq

structure MemoryData where
  total : String
  used : String
  free : String
  usagePercent : String
  deriving DecidableEq

structure DiskData where
  total : String
  used : String
  available : String
  usagePercent : String
  deriving DecidableEq

structure NetworkData where
  download : String
  upload : String
  deriving DecidableEq

structure SystemInfoData where
  platform : String
  distro : String
  arch : String
  hostname : String
  uptime : Int
  deriving DecidableEq

structure ProcessesData where
  all : Int
  running : Int
  blocked : Int
  list : List ProcessRow
  deriving DecidableEq

structure SystemData where
  cpu : CpuData
  memory : MemoryData
  disk : DiskData
  network : NetworkData
  system : SystemInfoData
  processes : ProcessesData
  deriving DecidableEq

/-- Bytes in a gigabyte, `1024 ** 3`. -/
def GB : Int := 1024 ^ 3

/-- The `systemData` object literal (route lines 192-228). -/
def buildSystemData (v : ScalarValues) (procs : List ProcessRow) : SystemData where
  cpu :=
    { usage := jsToFixed2 v.cpuUsage
      cores := v.cpuCores
      model := v.cpuModel
      speed := 0 }
  memory :=
    { total := jsToFixed2 (ratDivInt v.memTotal GB)
      used := jsToFixed2 (ratDivInt v.memUsed GB)
      free := jsToFixed2 (ratDivInt v.memFree GB)
      usagePercent := jsToFixed2 (ratMul (ratDivInt v.memUsed v.memTotal) (mkRat 100 1)) }
  disk :=
    { total := jsToFixed2 (ratDivInt v.diskTotal GB)
      used := jsToFixed2 (ratDivInt v.diskUsed GB)
      available := jsToFixed2 (ratDivInt v.diskAvailable GB)
      usagePercent := jsToFixed2 v.diskUsagePercent }
  network := { download := "0.00", upload := "0.00" }
  system :=
    { platform := v.platform
      distro := v.distro
      arch := v.arch
      hostname := v.hostname
      uptime := ratFloor v.uptime }
  processes :=
    { all := v.processesAll
      running := v.processesRunning
      blocked := 0
      list := procs }

/-! ### The handler as a state machine -/

/-- A JSON HTTP response from the handler. -/
inductive Response where
  | errorJson (status : Nat) (msg : String)
  | dataJson (status : Nat) (data : SystemData)
  deriving DecidableEq

/-- The two per-request resources tracked for the cleanup invariant. -/
structure World where
  keyFileOnDisk : Bool
  sessionOpen : Bool
  deriving DecidableEq

def World.start : World := ⟨false, false⟩

/-- Result of `ssh.execCommand`. -/
structure CmdResult where
  code : Int
  stdout : String
  stderr : String
  deriving DecidableEq

/-- Oracle for the three fallible SSH operations: `.error msg` means the
call throws an exception whose `.message` is `msg`. -/
structure SshEnv where
  connect : Except String Unit
  scalarExec : Except String CmdResult
  procExec : Except String CmdResult

/-- The validation and connection-configuration phase
(route lines 25-94): either an early `400` response, or the
`connectionConfig` handed to `ssh.connect` together with whether a
transient key file was written to disk. -/
inductive AuthOutcome where
  | reject (resp : Response)
  | proceed (cfg : ConnectionConfig) (keyFileCreated : Bool)
  deriving DecidableEq

def authenticate (b : Body) : AuthOutcome :=
  if b.host = "" ∨ b.username = "" then
    .reject (.errorJson 400 missingFieldMsg)
  else if b.privateKey = "" ∧ b.password = "" then
    .reject (.errorJson 400 missingCredentialMsg)
  else
    let base : ConnectionConfig :=
      { host := b.host
        port := if b.port = 0 then 22 else b.port
        username := b.username
        readyTimeout := 15000
        tryKeyboard := true
        password := none
        privateKeyPath := none
        passphrase := none }
    if b.password ≠ "" ∧ b.privateKey = "" then
      .proceed { base with password := some b.password } false
    else if b.privateKey ≠ "" then
      let processedKey := normalizeKey b.privateKey
      if jsIncludes processedKey ppkMarker then
        .reject (.errorJson 400 ppkMsg)
      else
        .proceed
          { base with
            privateKeyPath := some keyFileName
            passphrase := if b.passphrase ≠ "" then some b.passphrase else none }
          true
    else
      .proceed base false

/-- The `catch` block (route lines 231-267): dispose the session if still
connected, delete the key file if one was created (a failing `unlinkSync`
is swallowed), classify the error message by substring and answer 500. -/
def catchBlock (msg : String) (w : World) : Response × World :=
  let errorMessage :=
    if jsIncludes msg "All configured authentication methods failed" then authFailedMsg
    else if jsIncludes msg "Timed out" then timeoutMsg
    else if jsIncludes msg "ECONNREFUSED" then refusedMsg
    else if jsIncludes msg "Unsupported key format" || jsIncludes msg "Cannot parse privateKey" then
      badKeyFormatMsg
    else jsOrStr msg fallbackErrorMsg
  let w1 := if w.sessionOpen then { w with sessionOpen := false } else w
  (.errorJson 500 errorMessage, { w1 with keyFileOnDisk := false })

/-- The whole `POST` handler: `body = none` models `request.json()`
throwing.  Returns the response and the final state of the two tracked
resources. -/
def runPOST (body : Option Body) (env : SshEnv) : Response × World :=
  match body with
  | none => (.errorJson 400 invalidBodyMsg, World.start)
  | some b =>
    match authenticate b with
    | .reject resp => (resp, World.start)
    | .proceed _cfg keyCreated =>
      let w1 : World := ⟨keyCreated, false⟩
      match env.connect with
      | .error msg => catchBlock msg w1
      | .ok _ =>
        let w2 : World := { w1 with sessionOpen := true }
        match env.scalarExec with
        | .error msg => catchBlock msg w2
        | .ok result =>
          match env.procExec with
          | .error msg => catchBlock msg w2
          | .ok processesResult =>
            let w3 : World := ⟨false, false⟩
            if result.code ≠ 0 then
              catchBlock probeFailedMsg w3
            else
              let results := splitScalarStdout result.stdout
              let v := parseScalarValues b.host results
              let procs := parseProcesses processesResult.stdout
              (.dataJson 200 (buildSystemData v procs), w3)

/-! ### Concrete inputs used by the witnesses -/

/-- A password-only request body used as a concrete input. -/
def bPw : Body := ⟨"h", 0, "u", "", "", "pw"⟩

/-- The connection configuration the handler builds for `bPw`. -/
def cfgPw : ConnectionConfig := ⟨"h", 22, "u", 15000, true, some "pw", none, none⟩

/-- Oracle: connection fine, scalar probe exits 1. -/
def envScalarFails : SshEnv := ⟨.ok (), .ok ⟨1, "", ""⟩, .ok ⟨0, "", ""⟩⟩

/-- Oracle: connection fine, scalar probe succeeds, process probe exits 1
with empty stdout. -/
def envProcFails : SshEnv := ⟨.ok (), .ok ⟨0, "", ""⟩, .ok ⟨1, "", "boom"⟩⟩

/-- Oracle: everything succeeds with empty output. -/
def envOk : SshEnv := ⟨.ok (), .ok ⟨0, "", ""⟩, .ok ⟨0, "", ""⟩⟩

/-- A PPK-marked key accompanied by a password: the PPK check still
fires. -/
def bPpk : Body := ⟨"h", 0, "u", "aaa\\nPuTTY-User-Key-File-2: ssh-rsa\\nbbb", "", "pw"⟩

/-- A request body carrying both a password and a (non-PPK) key. -/
def bBoth : Body := ⟨"h", 0, "u", "SOMEKEY", "pp", "pw"⟩

/-- The key-based configuration the handler must build for `bBoth`. -/
def cfgBoth : ConnectionConfig := ⟨"h", 22, "u", 15000, true, none, some keyFileName, some "pp"⟩

/-- A 17-field scalar-probe stdout with memory total `8589934592` and
used `4294967296`. -/
def cStdout : String :=
  "42.5---4---Intel Xeon---8589934592---4294967296---1073741824---" ++
  "2000000000---1000000000---900000000---55---Linux---Ubuntu 22.04---" ++
  "x86_64---myhost---123.9---100---90"

/-- A process line with only 3 tokens. -/
def procLineShort : String := "a b c"

/-- A process line with exactly 11 tokens. -/
def procLine11 : String := "root 123 0.5 1.2 100 200 ? Ss 10:00 0:01 /usr/bin/foo"

/-- A process line whose 11th-and-later tokens join to 61 characters. -/
def procLineLong : String :=
  "u 1 0.0 0.0 1 2 ? S 0:00 0:00 aaaaaaaaaaaaaaaaaaaaaaaaaaaaaa bbbbbbbbbbbbbbbbbbbbbbbbbbbbbb"

/-! ### Bridge lemmas: the kernel-computable operations are the standard
rational operations. -/

theorem ratDivInt_eq (a b : Int) (hb : b ≠ 0) : ratDivInt a b = (a : Rat) / (b : Rat) := by
  unfold ratDivInt
  rcases lt_or_gt_of_ne hb with h | h
  · rw [if_pos h, Rat.mkRat_eq_div]
    have h1 : (((-b).toNat : ℕ) : Rat) = -(b : Rat) := by
      have h2 : ((-b).toNat : ℤ) = -b := Int.toNat_of_nonneg (by omega)
      exact_mod_cast h2
    rw [h1]
    push_cast
    rw [neg_div_neg_eq]
  · rw [if_neg (by omega), Rat.mkRat_eq_div]
    have h1 : ((b.toNat : ℕ) : Rat) = (b : Rat) := by
      have h2 : (b.toNat : ℤ) = b := Int.toNat_of_nonneg (by omega)
      exact_mod_cast h2
    rw [h1]

theorem ratMul_eq (a b : Rat) : ratMul a b = a * b := by
  conv_rhs => rw [← Rat.num_div_den a, ← Rat.num_div_den b]
  unfold ratMul
  rw [Rat.mkRat_eq_div, div_mul_div_comm]
  push_cast
  rfl

theorem pow10_eq (e : Int) : pow10 e = (10 : Rat) ^ e := by
  unfold pow10
  rcases le_or_lt 0 e with h | h
  · rw [if_pos h, Rat.mkRat_eq_div]
    push_cast
    rw [div_one, ← zpow_natCast]
    congr 1
    omega
  · rw [if_neg (by omega), Rat.mkRat_eq_div]
    push_cast
    rw [one_div, ← zpow_natCast, ← zpow_neg]
    congr 1
    omega

theorem ratFloor_eq (q : Rat) : ratFloor q = ⌊q⌋ := by
  rw [Rat.floor_def, ratFloor, Int.fdiv_eq_ediv _ (by exact_mod_cast Nat.zero_le q.den)]

theorem jsToFixed2_rounds (x : Rat) :
    (200 * x.num.natAbs + x.den) / (2 * x.den) = (⌊|x| * 100 + 1 / 2⌋).toNat := by
  have hden : (0 : Rat) < (x.den : Rat) := by exact_mod_cast x.pos
  have habs : |x| * 100 + 1 / 2
      = ((200 * x.num.natAbs + x.den : ℕ) : Rat) / ((2 * x.den : ℕ) : Rat) := by
    conv_lhs => rw [← Rat.num_div_den x]
    rw [abs_div, abs_of_pos hden]
    push_cast [Int.cast_natAbs]
    field_simp
    ring
  rw [habs, Rat.floor_natCast_div_natCast, ← Int.natCast_div, Int.toNat_natCast]

/-! ## Helper lemmas -/

theorem drop10_of_len11 (l : List String) (h : l.length = 11) :
    l.drop 10 = [l.getD 10 ""] := by
  have h10 : 10 < l.length := by omega
  have hnil : l.drop 11 = [] := List.drop_eq_nil_iff.mpr (by omega)
  rw [List.drop_eq_getElem_cons h10, hnil, List.getD_eq_getElem?_getD,
    List.getElem?_eq_getElem h10]
  rfl

theorem jsSubstringTo_length (s : String) (n : Nat) :
    (jsSubstringTo s n).length = min n s.length :=
  List.length_take n s.data

theorem jsSubstringTo_of_length_le (s : String) (n : Nat) (h : s.length ≤ n) :
    jsSubstringTo s n = s := by
  unfold jsSubstringTo
  rw [List.take_of_length_le h]

/-! ## The claims -/

/-- C1: on every exit path of the handler — invalid body, validation
reject, PPK reject, connect failure, either exec call throwing, non-zero
scalar exit, or full success — the transient key file is no longer on
disk and the SSH session is closed when the handler returns. -/
theorem cleanup_on_every_path (body : Option Body) (env : SshEnv) :
    (runPOST body env).2.keyFileOnDisk = false ∧
    (runPOST body env).2.sessionOpen = false := by
  have hcatch : ∀ msg w, (catchBlock msg w).2 = World.start := by
    intro msg w
    unfold catchBlock
    by_cases h : w.sessionOpen <;> simp [h, World.start]
  have h : (runPOST body env).2 = World.start := by
    rcases body with _ | b
    · rfl
    simp only [runPOST]
    cases authenticate b with
    | reject resp => rfl
    | proceed cfg kc =>
      cases env.connect with
      | error msg => exact hcatch msg _
      | ok u =>
        cases env.scalarExec with
        | error msg => exact hcatch msg _
        | ok r =>
          cases env.procExec with
          | error msg => exact hcatch msg _
          | ok p =>
            by_cases hc : r.code ≠ 0
            · simp only [if_pos hc]
              exact hcatch _ _
            · simp only [if_neg hc]
              rfl
  rw [h]
  exact ⟨rfl, rfl⟩

/-- C2: whenever the combined scalar probe command returns a non-zero
exit code, the handler answers the hard 500 `ProbeExecutionFailed` error
(message `Failed to execute system commands`) and never a metrics
snapshot, partial or otherwise. -/
theorem scalar_probe_failure_is_hard (b : Body) (cfg : ConnectionConfig) (kc : Bool)
    (env : SshEnv) (r p : CmdResult) (st : Nat) (d : SystemData)
    (hauth : authenticate b = .proceed cfg kc)
    (hconn : env.connect = .ok ())
    (hscalar : env.scalarExec = .ok r)
    (hcode : r.code ≠ 0)
    (hproc : env.procExec = .ok p) :
    (runPOST (some b) env).1 = .errorJson 500 probeFailedMsg ∧
    (runPOST (some b) env).1 ≠ .dataJson st d := by
  have h1 : (runPOST (some b) env).1 = .errorJson 500 probeFailedMsg := by
    simp only [runPOST, hauth, hconn, hscalar, hproc, if_pos hcode]
    set_option maxRecDepth 100000 in decide
  refine ⟨h1, ?_⟩
  rw [h1]
  simp

theorem scalar_probe_failure_is_hard_witness :
    (runPOST (some bPw) envScalarFails).1 = .errorJson 500 probeFailedMsg ∧
    (runPOST (some bPw) envScalarFails).1
      ≠ .dataJson 200 (buildSystemData (parseScalarValues "h" []) []) :=
  scalar_probe_failure_is_hard bPw cfgPw false envScalarFails ⟨1, "", ""⟩ ⟨0, "", ""⟩
    200 (buildSystemData (parseScalarValues "h" []) [])
    (by decide) rfl rfl (by decide) rfl

/-- C8: a request missing host or username is answered with the 400
`MissingField` error with no network effect and no key file, even when
credentials are also absent (the host/username check short-circuits the
credential check); a request with host and username but neither password
nor key material is answered with the 400 `MissingCredential` error,
likewise before any effect. -/
theorem validation_short_circuits (b : Body) (env : SshEnv) :
    ((b.host = "" ∨ b.username = "") →
      runPOST (some b) env = (.errorJson 400 missingFieldMsg, World.start)) ∧
    (b.host ≠ "" → b.username ≠ "" → b.password = "" → b.privateKey = "" →
      runPOST (some b) env = (.errorJson 400 missingCredentialMsg, World.start)) := by
  constructor
  · intro h
    simp only [runPOST, authenticate, if_pos h]
  · intro h1 h2 h3 h4
    simp only [runPOST, authenticate, if_neg (not_or.mpr ⟨h1, h2⟩),
      if_pos (show b.privateKey = "" ∧ b.password = "" from ⟨h4, h3⟩)]

theorem validation_short_circuits_witness :
    runPOST (some ⟨"", 0, "", "", "", ""⟩) envOk
      = (.errorJson 400 missingFieldMsg, World.start) ∧
    runPOST (some ⟨"h", 0, "u", "", "", ""⟩) envOk
      = (.errorJson 400 missingCredentialMsg, World.start) :=
  ⟨(validation_short_circuits ⟨"", 0, "", "", "", ""⟩ envOk).1 (Or.inl rfl),
   (validation_short_circuits ⟨"h", 0, "u", "", "", ""⟩ envOk).2
     (by decide) (by decide) rfl rfl⟩

/-- C6: whenever the supplied private-key material still contains the
PuTTY container marker after line-ending normalization, the handler
answers the 400 `UnsupportedKeyFormat` conversion-instructions error —
whatever else the key contains and whether or not a password was also
sent — and, since the result holds for every SSH oracle and leaves the
world at `World.start`, the transport connect is never attempted and no
key file is written. -/
theorem ppk_key_rejected (b : Body) (env : SshEnv)
    (hhost : b.host ≠ "") (huser : b.username ≠ "") (hkey : b.privateKey ≠ "")
    (hppk : jsIncludes (normalizeKey b.privateKey) ppkMarker = true) :
    runPOST (some b) env = (.errorJson 400 ppkMsg, World.start) := by
  have hA : authenticate b = .reject (.errorJson 400 ppkMsg) := by
    simp only [authenticate, if_neg (not_or.mpr ⟨hhost, huser⟩),
      if_neg (show ¬(b.privateKey = "" ∧ b.password = "") from fun hc => hkey hc.1),
      if_neg (show ¬(b.password ≠ "" ∧ b.privateKey = "") from fun hc => hkey hc.2),
      if_pos hkey, hppk, if_true]
  simp only [runPOST, hA]

theorem ppk_key_rejected_witness :
    runPOST (some bPpk) envOk = (.errorJson 400 ppkMsg, World.start) :=
  ppk_key_rejected bPpk envOk (by decide) (by decide) (by decide)
    (by set_option maxRecDepth 100000 in decide)

/-- C9: a request carrying both a password and private-key material (with
host and username present and the key not PPK-marked) passes validation,
and the connection configuration uses key-based authentication: it gets
the transient key-file path and the optional passphrase, while its
`password` field stays unset — the supplied password is ignored. -/
theorem both_credentials_use_key (b : Body)
    (hhost : b.host ≠ "") (huser : b.username ≠ "")
    (hpw : b.password ≠ "") (hkey : b.privateKey ≠ "")
    (hppk : jsIncludes (normalizeKey b.privateKey) ppkMarker = false) :
    authenticate b = .proceed
      { host := b.host
        port := if b.port = 0 then 22 else b.port
        username := b.username
        readyTimeout := 15000
        tryKeyboard := true
        password := none
        privateKeyPath := some keyFileName
        passphrase := if b.passphrase ≠ "" then some b.passphrase else none } true := by
  simp only [authenticate, if_neg (not_or.mpr ⟨hhost, huser⟩),
    if_neg (show ¬(b.privateKey = "" ∧ b.password = "") from fun hc => hkey hc.1),
    if_neg (show ¬(b.password ≠ "" ∧ b.privateKey = "") from fun hc => hkey hc.2),
    if_pos hkey, hppk, Bool.false_eq_true, if_false]

theorem both_credentials_use_key_witness :
    authenticate bBoth = .proceed cfgBoth true := by
  have h := both_credentials_use_key bBoth (by decide) (by decide) (by decide) (by decide)
    (by set_option maxRecDepth 100000 in decide)
  exact h

/-- C7: the process-table probe's exit status is never consulted — with a
successful scalar probe the handler returns the full snapshot whatever
the process probe's exit code or stderr (third conjunct: the response is
unchanged under any exit code and stderr), and empty process output
yields an empty process list rather than a failure. -/
theorem process_probe_not_checked (b : Body) (cfg : ConnectionConfig) (kc : Bool)
    (r p : CmdResult) (c : Int) (e : String)
    (hauth : authenticate b = .proceed cfg kc)
    (hcode : r.code = 0) :
    (runPOST (some b) ⟨.ok (), .ok r, .ok p⟩).1
      = .dataJson 200 (buildSystemData (parseScalarValues b.host (splitScalarStdout r.stdout))
          (parseProcesses p.stdout)) ∧
    (p.stdout = "" →
      (buildSystemData (parseScalarValues b.host (splitScalarStdout r.stdout))
          (parseProcesses p.stdout)).processes.list = []) ∧
    runPOST (some b) ⟨.ok (), .ok r, .ok ⟨c, p.stdout, e⟩⟩
      = runPOST (some b) ⟨.ok (), .ok r, .ok p⟩ := by
  have hnc : ¬ (r.code ≠ 0) := by simp [hcode]
  refine ⟨?_, fun hempty => ?_, ?_⟩
  · simp only [runPOST, hauth, if_neg hnc]
  · show parseProcesses p.stdout = []
    rw [hempty]
    decide
  · simp only [runPOST, hauth, if_neg hnc]

theorem process_probe_not_checked_witness :
    (runPOST (some bPw) envProcFails).1
      = .dataJson 200 (buildSystemData (parseScalarValues "h" (splitScalarStdout ""))
          (parseProcesses "")) ∧
    (buildSystemData (parseScalarValues "h" (splitScalarStdout ""))
        (parseProcesses "")).processes.list = [] ∧
    runPOST (some bPw) ⟨.ok (), .ok ⟨0, "", ""⟩, .ok ⟨7, "", "x"⟩⟩
      = runPOST (some bPw) envProcFails := by
  obtain ⟨h1, h2, h3⟩ :=
    process_probe_not_checked bPw cfgPw false ⟨0, "", ""⟩ ⟨1, "", "boom"⟩ 7 "x" (by decide) rfl
  exact ⟨h1, h2 rfl, h3⟩

set_option maxRecDepth 1000000 in
set_option maxHeartbeats 2000000 in
/-- C3: for a 17-field scalar stdout, every byte-valued memory and disk
field becomes gigabytes by division by `1024 ^ 3` formatted to two
decimals (first six conjuncts), and in particular memory total
`8589934592` with used `4294967296` yields `total = "8.00"`,
`used = "4.00"`, `usagePercent = "50.00"`. -/
theorem byte_fields_in_gigabytes (stdout host : String) (procs : List ProcessRow)
    (hlen : (splitScalarStdout stdout).length = 17) :
    ((buildSystemData (parseScalarValues host (splitScalarStdout stdout)) procs).memory.total
        = jsToFixed2 (ratDivInt
            (jsOrInt (jsParseInt ((splitScalarStdout stdout).getD 3 "")) 1) GB) ∧
      (buildSystemData (parseScalarValues host (splitScalarStdout stdout)) procs).memory.used
        = jsToFixed2 (ratDivInt
            (jsOrInt (jsParseInt ((splitScalarStdout stdout).getD 4 "")) 0) GB) ∧
      (buildSystemData (parseScalarValues host (splitScalarStdout stdout)) procs).memory.free
        = jsToFixed2 (ratDivInt
            (jsOrInt (jsParseInt ((splitScalarStdout stdout).getD 5 "")) 0) GB) ∧
      (buildSystemData (parseScalarValues host (splitScalarStdout stdout)) procs).disk.total
        = jsToFixed2 (ratDivInt
            (jsOrInt (jsParseInt ((splitScalarStdout stdout).getD 6 "")) 1) GB) ∧
      (buildSystemData (parseScalarValues host (splitScalarStdout stdout)) procs).disk.used
        = jsToFixed2 (ratDivInt
            (jsOrInt (jsParseInt ((splitScalarStdout stdout).getD 7 "")) 0) GB) ∧
      (buildSystemData (parseScalarValues host (splitScalarStdout stdout)) procs).disk.available
        = jsToFixed2 (ratDivInt
            (jsOrInt (jsParseInt ((splitScalarStdout stdout).getD 8 "")) 0) GB)) ∧
    ((splitScalarStdout stdout).getD 3 "" = "8589934592" →
      (splitScalarStdout stdout).getD 4 "" = "4294967296" →
      (buildSystemData (parseScalarValues host (splitScalarStdout stdout)) procs).memory.total
          = "8.00" ∧
        (buildSystemData (parseScalarValues host (splitScalarStdout stdout)) procs).memory.used
          = "4.00" ∧
        (buildSystemData (parseScalarValues host (splitScalarStdout stdout)) procs).memory.usagePercent
          = "50.00") := by
  refine ⟨⟨rfl, rfl, rfl, rfl, rfl, rfl⟩, fun h3 h4 => ⟨?_, ?_, ?_⟩⟩
  · show jsToFixed2 (ratDivInt
      (jsOrInt (jsParseInt ((splitScalarStdout stdout).getD 3 "")) 1) GB) = "8.00"
    rw [h3]
    decide
  · show jsToFixed2 (ratDivInt
      (jsOrInt (jsParseInt ((splitScalarStdout stdout).getD 4 "")) 0) GB) = "4.00"
    rw [h4]
    decide
  · show jsToFixed2 (ratMul (ratDivInt
      (jsOrInt (jsParseInt ((splitScalarStdout stdout).getD 4 "")) 0)
      (jsOrInt (jsParseInt ((splitScalarStdout stdout).getD 3 "")) 1)) (mkRat 100 1)) = "50.00"
    rw [h3, h4]
    decide

set_option maxRecDepth 1000000 in
set_option maxHeartbeats 2000000 in
theorem byte_fields_in_gigabytes_witness :
    (buildSystemData (parseScalarValues "myhost" (splitScalarStdout cStdout)) []).memory.total
        = "8.00" ∧
      (buildSystemData (parseScalarValues "myhost" (splitScalarStdout cStdout)) []).memory.used
        = "4.00" ∧
      (buildSystemData (parseScalarValues "myhost"
          (splitScalarStdout cStdout)) []).memory.usagePercent = "50.00" :=
  (byte_fields_in_gigabytes cStdout "myhost" [] (by decide)).2 (by decide) (by decide)

/-- C4 counterexample: the cpu-cores field (field 1) is neither the
total-memory nor the total-disk field, yet when it fails numeric parsing
it defaults to 1, not 0 — `parseInt(results[1]) || 1` in the route. -/
theorem cpu_cores_default_is_one :
    jsParseInt ((List.replicate 17 "x").getD 1 "") = none ∧
    (parseScalarValues "h" (List.replicate 17 "x")).cpuCores = 1 ∧
    (parseScalarValues "h" (List.replicate 17 "x")).cpuCores ≠ 0 := by
  decide

/-- C4 amended: a numeric field that fails parsing defaults to 0, except
cpu-cores, total-memory and total-disk, which default to 1; the snapshot
is still produced (the parser is total, so no field failure aborts it). -/
theorem numeric_field_defaults (host : String) (results : List String) :
    (jsParseFloat (results.getD 0 "") = none →
      (parseScalarValues host results).cpuUsage = 0) ∧
    (jsParseInt (results.getD 1 "") = none →
      (parseScalarValues host results).cpuCores = 1) ∧
    (jsParseInt (results.getD 3 "") = none →
      (parseScalarValues host results).memTotal = 1) ∧
    (jsParseInt (results.getD 4 "") = none →
      (parseScalarValues host results).memUsed = 0) ∧
    (jsParseInt (results.getD 5 "") = none →
      (parseScalarValues host results).memFree = 0) ∧
    (jsParseInt (results.getD 6 "") = none →
      (parseScalarValues host results).diskTotal = 1) ∧
    (jsParseInt (results.getD 7 "") = none →
      (parseScalarValues host results).diskUsed = 0) ∧
    (jsParseInt (results.getD 8 "") = none →
      (parseScalarValues host results).diskAvailable = 0) ∧
    (jsParseFloat (results.getD 9 "") = none →
      (parseScalarValues host results).diskUsagePercent = 0) ∧
    (jsParseFloat (results.getD 14 "") = none →
      (parseScalarValues host results).uptime = 0) ∧
    (jsParseInt (results.getD 15 "") = none →
      (parseScalarValues host results).processesAll = 0) ∧
    (jsParseInt (results.getD 16 "") = none →
      (parseScalarValues host results).processesRunning = 0) := by
  refine ⟨fun h => ?_, fun h => ?_, fun h => ?_, fun h => ?_, fun h => ?_, fun h => ?_,
    fun h => ?_, fun h => ?_, fun h => ?_, fun h => ?_, fun h => ?_, fun h => ?_⟩ <;>
    (simp only [parseScalarValues, h]; rfl)

theorem numeric_field_defaults_witness :
    (parseScalarValues "h" (List.replicate 17 "x")).cpuUsage = 0 ∧
    (parseScalarValues "h" (List.replicate 17 "x")).cpuCores = 1 ∧
    (parseScalarValues "h" (List.replicate 17 "x")).memTotal = 1 ∧
    (parseScalarValues "h" (List.replicate 17 "x")).memUsed = 0 ∧
    (parseScalarValues "h" (List.replicate 17 "x")).memFree = 0 ∧
    (parseScalarValues "h" (List.replicate 17 "x")).diskTotal = 1 ∧
    (parseScalarValues "h" (List.replicate 17 "x")).diskUsed = 0 ∧
    (parseScalarValues "h" (List.replicate 17 "x")).diskAvailable = 0 ∧
    (parseScalarValues "h" (List.replicate 17 "x")).diskUsagePercent = 0 ∧
    (parseScalarValues "h" (List.replicate 17 "x")).uptime = 0 ∧
    (parseScalarValues "h" (List.replicate 17 "x")).processesAll = 0 ∧
    (parseScalarValues "h" (List.replicate 17 "x")).processesRunning = 0 := by
  obtain ⟨h0, h1, h3, h4, h5, h6, h7, h8, h9, h14, h15, h16⟩ :=
    numeric_field_defaults "h" (List.replicate 17 "x")
  exact ⟨h0 (by decide), h1 (by decide), h3 (by decide), h4 (by decide), h5 (by decide),
    h6 (by decide), h7 (by decide), h8 (by decide), h9 (by decide), h14 (by decide),
    h15 (by decide), h16 (by decide)⟩

/-- C10 counterexample: a total-memory field that parses to a negative
number survives `|| 1` (it is truthy), so the divisor is not "at least
1": with field 3 equal to `"-5"`, `memTotal = -5 < 1`. -/
theorem mem_total_negative_counterexample :
    jsParseInt ((List.replicate 17 "-5").getD 3 "") = some (-5) ∧
    (parseScalarValues "h" (List.replicate 17 "-5")).memTotal = -5 ∧
    ¬ (1 ≤ (parseScalarValues "h" (List.replicate 17 "-5")).memTotal) := by
  decide

/-- C10 amended: the memory-total divisor is never zero — an unparsable
field and a field parsing to exactly 0 are both coerced to 1 — so the
usage-percent division never divides by zero (negative parsed values,
however, pass through). -/
theorem mem_total_never_zero (host : String) (results : List String) :
    (parseScalarValues host results).memTotal ≠ 0 ∧
    (jsParseInt (results.getD 3 "") = none → (parseScalarValues host results).memTotal = 1) ∧
    (jsParseInt (results.getD 3 "") = some 0 → (parseScalarValues host results).memTotal = 1) := by
  refine ⟨?_, fun h => by simp only [parseScalarValues, h]; rfl,
    fun h => by simp only [parseScalarValues, h]; rfl⟩
  show jsOrInt (jsParseInt (results.getD 3 "")) 1 ≠ 0
  unfold jsOrInt
  cases jsParseInt (results.getD 3 "") with
  | none => decide
  | some n =>
    by_cases hn : n = 0
    · simp [hn]
    · simp [hn]

theorem mem_total_never_zero_witness :
    (parseScalarValues "h" (List.replicate 17 "x")).memTotal ≠ 0 ∧
    (parseScalarValues "h" (List.replicate 17 "x")).memTotal = 1 ∧
    (parseScalarValues "h" (List.replicate 17 "0")).memTotal = 1 :=
  ⟨(mem_total_never_zero "h" (List.replicate 17 "x")).1,
    (mem_total_never_zero "h" (List.replicate 17 "x")).2.1 (by decide),
    (mem_total_never_zero "h" (List.replicate 17 "0")).2.2 (by decide)⟩

/-- C5: a process line with fewer than 11 whitespace tokens is silently
dropped; with 11 or more, the row's command is the 11th-and-later tokens
rejoined with single spaces and cut to 50 characters — so with exactly
11 tokens the command is the 11th token (cut to 50; equal to it whenever
it is at most 50 characters), and a joined command longer than 50
characters comes out at exactly 50 characters. -/
theorem process_line_tokens (line : String) :
    ((jsWords (jsTrim line)).length < 11 → parseProcessLine line = none) ∧
    (11 ≤ (jsWords (jsTrim line)).length →
      (parseProcessLine line).map ProcessRow.command
        = some (jsSubstringTo (jsJoin " " ((jsWords (jsTrim line)).drop 10)) 50)) ∧
    ((jsWords (jsTrim line)).length = 11 →
      (parseProcessLine line).map ProcessRow.command
        = some (jsSubstringTo ((jsWords (jsTrim line)).getD 10 "") 50)) ∧
    ((jsWords (jsTrim line)).length = 11 →
      ((jsWords (jsTrim line)).getD 10 "").length ≤ 50 →
      (parseProcessLine line).map ProcessRow.command
        = some ((jsWords (jsTrim line)).getD 10 "")) ∧
    (11 ≤ (jsWords (jsTrim line)).length →
      50 < (jsJoin " " ((jsWords (jsTrim line)).drop 10)).length →
      ((parseProcessLine line).map ProcessRow.command).map String.length = some 50) := by
  have h2 : ∀ _h : 11 ≤ (jsWords (jsTrim line)).length,
      (parseProcessLine line).map ProcessRow.command
        = some (jsSubstringTo (jsJoin " " ((jsWords (jsTrim line)).drop 10)) 50) := by
    intro h
    simp only [parseProcessLine]
    rw [if_neg (by omega : ¬ (jsWords (jsTrim line)).length < 11)]
    rfl
  have h3 : ∀ _h : (jsWords (jsTrim line)).length = 11,
      (parseProcessLine line).map ProcessRow.command
        = some (jsSubstringTo ((jsWords (jsTrim line)).getD 10 "") 50) := by
    intro h
    have hx := h2 (by omega)
    rw [drop10_of_len11 _ h] at hx
    simpa [jsJoin] using hx
  refine ⟨fun h => ?_, h2, h3, fun h hle => ?_, fun h h50 => ?_⟩
  · simp only [parseProcessLine]
    rw [if_pos h]
  · have hx := h3 h
    rw [jsSubstringTo_of_length_le _ _ hle] at hx
    exact hx
  · have hx := h2 h
    rw [hx]
    have hmin : (jsSubstringTo (jsJoin " " ((jsWords (jsTrim line)).drop 10)) 50).length = 50 := by
      rw [jsSubstringTo_length]
      omega
    simp [hmin]

set_option maxRecDepth 1000000 in
set_option maxHeartbeats 2000000 in
theorem process_line_tokens_witness :
    parseProcessLine procLineShort = none ∧
    (parseProcessLine procLine11).map ProcessRow.command = some "/usr/bin/foo" ∧
    ((parseProcessLine procLineLong).map ProcessRow.command).map String.length = some 50 :=
  ⟨(process_line_tokens procLineShort).1 (by decide),
    (process_line_tokens procLine11).2.2.2.1 (by decide) (by decide),
    (process_line_tokens procLineLong).2.2.2.2 (by decide) (by decide)⟩

end RemoteSystem
